import Mathlib

/-!
# Azure-DCAP-Client Windows local cache: shallow embedding

Verification development for `src/Windows/dll/local_cache.cpp`: a persistent
on-disk cache with operations `local_cache_add`, `local_cache_get`,
`local_cache_clear`, a retrying file opener `OpenHandle`, directory resolution
(`init_callback` / `make_dir`), and a versioned on-disk entry format
(`CacheEntryHeaderV1`).

Modelling conventions:
* Bytes are `Nat` values (< 256 for real data); file contents are `List Nat`.
* Win32 error codes are `Nat` (`ERROR_FILE_NOT_FOUND = 2`,
  `ERROR_PATH_NOT_FOUND = 3`, `ERROR_ACCESS_DENIED = 5`,
  `ERROR_ALREADY_EXISTS = 183`, `ERROR_SHARING_VIOLATION = 32`).
* `time_t` values (expiry, current time) are unbounded `Int`; the on-disk
  expiry field is the 64-bit two's-complement little-endian image.
* `struct CacheEntryHeaderV1 { uint16_t version; time_t expiry; }` is compiled
  by MSVC for x64 with default alignment: `version` occupies bytes 0..1,
  bytes 2..7 are padding, `expiry` (8-byte `time_t`) occupies bytes 8..15,
  and `sizeof(CacheEntryHeaderV1) = 16`.  The code writes and reads the raw
  struct bytes, so this ABI layout is part of the embedding
  (`HEADER_SIZE`, `encodeHeader`, `parsedExpiry`).
* Filesystem and kernel outcomes that the code branches on (result of
  `CreateFile`, `GetLastError` after `CreateDirectory`, success of
  `DeleteFileW`/`WriteFile`, directory listings) are explicit parameters.
* `throw std::runtime_error(msg)` is `Except.error msg`.
* Each operation additionally returns the list of filesystem actions it
  performed (`CacheEvent`), used to state that argument validation happens
  before any filesystem I/O.
-/

namespace LocalCache

/-- `#define MAX_RETRY 10000` (local_cache.cpp line 23). -/
def MAX_RETRY : Nat := 10000

/-- `#define SLEEP_RETRY_MS 15` (line 24). -/
def SLEEP_RETRY_MS : Nat := 15

/-- `constexpr uint16_t CACHE_V1 = 1;` (line 26). -/
def CACHE_V1 : Nat := 1

/-- Win32 `ERROR_FILE_NOT_FOUND`. -/
def ERROR_FILE_NOT_FOUND : Nat := 2

/-- Win32 `ERROR_PATH_NOT_FOUND`. -/
def ERROR_PATH_NOT_FOUND : Nat := 3

/-- Win32 `ERROR_ACCESS_DENIED`. -/
def ERROR_ACCESS_DENIED : Nat := 5

/-- Win32 `ERROR_SHARING_VIOLATION`. -/
def ERROR_SHARING_VIOLATION : Nat := 32

/-- Win32 `ERROR_ALREADY_EXISTS`. -/
def ERROR_ALREADY_EXISTS : Nat := 183

/-- `sizeof(CacheEntryHeaderV1)` under the MSVC x64 ABI: `uint16_t` at offset
0, six padding bytes, 8-byte `time_t` at offset 8. -/
def HEADER_SIZE : Nat := 16

/-- Byte offset of the `expiry` field inside the raw header bytes
(MSVC x64 layout of `CacheEntryHeaderV1`). -/
def EXPIRY_OFFSET : Nat := 8

/-- Little-endian byte image of `v` in `w` bytes (value taken mod `2^(8*w)`). -/
def leBytes : Nat → Nat → List Nat
  | 0, _ => []
  | w + 1, v => v % 256 :: leBytes w (v / 256)

/-- Little-endian decoding of a byte list to a `Nat`. -/
def leDecode : List Nat → Nat
  | [] => 0
  | b :: bs => b % 256 + 256 * leDecode bs

/-- 64-bit two's-complement little-endian image of a `time_t` value. -/
def encodeInt64 (v : Int) : List Nat :=
  leBytes 8 (v.emod (2 ^ 64)).toNat

/-- Read 8 bytes as a two's-complement signed 64-bit `time_t`. -/
def decodeInt64 (bs : List Nat) : Int :=
  if leDecode (bs.take 8) < 2 ^ 63 then (leDecode (bs.take 8) : Int)
  else (leDecode (bs.take 8) : Int) - 2 ^ 64

/-- The raw bytes of a zero-initialized `CacheEntryHeaderV1` whose fields were
set to `version` and `expiry`: `version` little-endian in bytes 0..1, padding
zero in bytes 2..7, `expiry` in bytes 8..15 (MSVC x64 layout; `header{}`
zero-initializes, so the padding bytes are zero). -/
def encodeHeader (version : Nat) (expiry : Int) : List Nat :=
  leBytes 2 version ++ [0, 0, 0, 0, 0, 0] ++ encodeInt64 expiry

/-- The stack buffer `char buf[sizeof(CacheEntryHeaderV1)] = { 0 }` after
`ReadFile(file, &buf, sizeof(CacheEntryHeaderV1), &headerread, nullptr)` on a
file with bytes `content`: the first `min content.length HEADER_SIZE` bytes
come from the file, the rest keep their zero initialization.  `headerread` is
never inspected by the code. -/
def headerBuf (content : List Nat) : List Nat :=
  content.take HEADER_SIZE ++ List.replicate (HEADER_SIZE - content.length) 0

/-- `header->expiry` as read back by `local_cache_get` from a file with bytes
`content`. -/
def parsedExpiry (content : List Nat) : Int :=
  decodeInt64 ((headerBuf content).drop EXPIRY_OFFSET)

/-- `header->version` as read back (stored but never checked by the code). -/
def parsedVersion (content : List Nat) : Nat :=
  leDecode ((headerBuf content).take 2)

/-- `make_dir` (lines 62-66): calls `CreateDirectory` and then
`throw_if(GetLastError() == ERROR_PATH_NOT_FOUND && GetLastError() != ERROR_ALREADY_EXISTS, "Path not found")`.
`lastError` is the value `GetLastError()` returns after the
`CreateDirectory` call (0 on success, `ERROR_ALREADY_EXISTS` if the directory
was already there, etc.). -/
def make_dir (lastError : Nat) : Except String Unit :=
  if lastError = ERROR_PATH_NOT_FOUND ∧ lastError ≠ ERROR_ALREADY_EXISTS then
    .error "Path not found"
  else
    .ok ()

/-- The fixed subdirectory name appended to the resolved base directory
(line 79; backslash written out). -/
def application_name : String := "\\.az-dcap-client"

/-- `init_callback` (lines 68-100).  `env_home` and `env_azdcap_cache` are the
buffer contents after `GetEnvironmentVariable` for `LOCALAPPDATA` resp.
`AZDCAP_CACHE` (an absent variable leaves the buffer without a value; we model
it as the empty string, matching the code's `env[0] != 0` emptiness test).
`mkdirLastError` is `GetLastError()` after the `CreateDirectory` call inside
`make_dir`.  Returns the resolved `g_cache_dirname`. -/
def init_callback (env_home env_azdcap_cache : String) (mkdirLastError : Nat) :
    Except String String :=
  if ¬env_home.isEmpty then
    (make_dir mkdirLastError).map fun _ => env_home ++ application_name
  else if ¬env_azdcap_cache.isEmpty then
    (make_dir mkdirLastError).map fun _ => env_azdcap_cache ++ application_name
  else
    .error "LOCALAPPDATA and AZDCAPCACHE environment variables not defined"

/-- Outcome of one `CreateFile` call inside `OpenHandle`: a valid handle on a
file (whose bytes we carry for the read path), or `INVALID_HANDLE_VALUE`
together with the `GetLastError()` code. -/
inductive OpenResult where
  | ok (content : List Nat)
  | fail (lastError : Nat)
deriving DecidableEq, Repr

/-- The do-while continuation test of `OpenHandle` (line 297), minus the
attempt counter: `file == INVALID_HANDLE_VALUE && GetLastError() == ERROR_SHARING_VIOLATION`. -/
def retryable : OpenResult → Bool
  | .ok _ => false
  | .fail e => e = ERROR_SHARING_VIOLATION

/-- The tail of `OpenHandle`'s do-while loop: the current attempt has 0-based
index `j`, and `fuel = MAX_RETRY - 1 - j` further attempts are allowed by the
`i < MAX_RETRY` test (after the attempt, `i = j + 1`).  Returns the final
`CreateFile` outcome and the total number of attempts made. -/
def openHandleGo (results : Nat → OpenResult) : Nat → Nat → OpenResult × Nat
  | j, 0 => (results j, j + 1)
  | j, fuel + 1 =>
    if retryable (results j) then openHandleGo results (j + 1) fuel
    else (results j, j + 1)

/-- `OpenHandle` (lines 286-300): retries `CreateFile` while it fails with
`ERROR_SHARING_VIOLATION` and fewer than `MAX_RETRY` attempts were made, then
returns the last outcome.  `results j` is the outcome of the `(j+1)`-th
`CreateFile` call.  The pair is (final outcome, number of attempts). -/
def OpenHandle (results : Nat → OpenResult) : OpenResult × Nat :=
  openHandleGo results 0 (MAX_RETRY - 1)

/-- A filesystem action performed by a cache operation, used to state which
calls happen before argument validation errors. -/
inductive CacheEvent where
  | initDir
  | openFile
  | writeFile
  | readFile
  | deleteFile
deriving DecidableEq, Repr

/-- Environment for `local_cache_add`: whether `init()` succeeds (directory
resolution, see `init_callback`), whether `OpenHandle` yields a valid handle,
and whether the two `WriteFile` calls succeed. -/
structure AddEnv where
  initOk : Bool
  openOk : Bool
  writeHeaderOk : Bool
  writeDataOk : Bool
deriving DecidableEq, Repr

/-- Result of `local_cache_add`: the thrown message, or the bytes of the
entry file it wrote (`CREATE_ALWAYS` replaces the file wholesale), together
with the filesystem actions performed. -/
structure AddOutcome where
  result : Except String (List Nat)
  events : List CacheEvent
deriving Repr

/-- `local_cache_add` (lines 303-330).  `id` is the cache key, `expiry` the
`time_t` argument, `data` the `data_size` bytes at the `data` pointer (`none`
models a null pointer).  On success the entry file holds the raw header bytes
followed by the payload. -/
def local_cache_add (id : String) (expiry : Int) (data_size : Nat)
    (data : Option (List Nat)) (env : AddEnv) : AddOutcome :=
  if id.isEmpty then
    ⟨.error "The 'id' parameter must not be empty.", []⟩
  else if data_size = 0 then
    ⟨.error "Data cannot be empty.", []⟩
  else
    match data with
    | none => ⟨.error "Data pointer must not be NULL.", []⟩
    | some bytes =>
      if ¬env.initOk then
        ⟨.error "LOCALAPPDATA and AZDCAPCACHE environment variables not defined",
          [.initDir]⟩
      else if ¬env.openOk then
        ⟨.error "Create file failed", [.initDir, .openFile]⟩
      else if ¬env.writeHeaderOk then
        ⟨.error "Header write to local cache failed", [.initDir, .openFile, .writeFile]⟩
      else if ¬env.writeDataOk then
        ⟨.error "Data write to local cache failed",
          [.initDir, .openFile, .writeFile, .writeFile]⟩
      else
        ⟨.ok (encodeHeader CACHE_V1 expiry ++ bytes),
          [.initDir, .openFile, .writeFile, .writeFile]⟩

/-- Result of `local_cache_get`: the thrown message, or `none` for the
`nullptr` (cache miss) return, or `some payload`; plus the filesystem actions
performed, whether `DeleteFileW` was called, and whether that deletion
succeeded. -/
structure GetOutcome where
  result : Except String (Option (List Nat))
  events : List CacheEvent
  deleteAttempted : Bool
  deleteSucceeded : Bool
deriving Repr

/-- `local_cache_get` (lines 332-377).  `now` is `time(nullptr)`, `openRes`
the final outcome of `OpenHandle` on the entry file (carrying the file bytes
when a handle is obtained), `deleteOk` whether a `DeleteFileW` on the file
would succeed, `initOk` whether `init()` succeeds.

The read path follows the code: the header buffer is zero-initialized and
`headerread` is never checked (`headerBuf`); an expiry at or before `now`
closes the handle, calls `DeleteFileW` ignoring its result, and returns
`nullptr`; otherwise `int datasize = size - sizeof(CacheEntryHeaderV1)` and
`std::make_unique<std::vector<uint8_t>>(datasize)` — for a file shorter than
the header this count is negative and the `std::vector` constructor throws
(modelled as the `length_error` branch); otherwise the second `ReadFile`
returns the `datasize` bytes after the header and the
`dataread != datasize` check passes. -/
def local_cache_get (id : String) (now : Int) (initOk : Bool)
    (openRes : OpenResult) (deleteOk : Bool) : GetOutcome :=
  if id.isEmpty then
    ⟨.error "The 'id' parameter must not be empty.", [], false, false⟩
  else if ¬initOk then
    ⟨.error "LOCALAPPDATA and AZDCAPCACHE environment variables not defined",
      [.initDir], false, false⟩
  else
    match openRes with
    | .fail _ => ⟨.ok none, [.initDir, .openFile], false, false⟩
    | .ok content =>
      if parsedExpiry content ≤ now then
        ⟨.ok none, [.initDir, .openFile, .readFile, .deleteFile], true, deleteOk⟩
      else if (content.length : Int) - (HEADER_SIZE : Int) < 0 then
        ⟨.error "vector length_error", [.initDir, .openFile, .readFile],
          false, false⟩
      else
        ⟨.ok (some (content.drop HEADER_SIZE)),
          [.initDir, .openFile, .readFile, .readFile], false, false⟩

/-- `fileName.compare(L".") && fileName.compare(L"..")` (line 272): true
exactly for real directory entries, false for the pseudo-entries. -/
def notPseudo (fileName : String) : Bool :=
  fileName ≠ "." ∧ fileName ≠ ".."

/-- The `do { ... } while (FindNextFile(...))` loop of `local_cache_clear`
(lines 270-279): walks the directory listing in enumeration order, skips `.`
and `..`, deletes each remaining entry, and throws on the first failed
`DeleteFileW` (`deleteOk` says which deletions would succeed).  Returns the
result and the files actually deleted, in order. -/
def clearLoop (deleteOk : String → Bool) :
    List String → Except String Unit × List String
  | [] => (.ok (), [])
  | f :: rest =>
    if notPseudo f then
      if deleteOk f then
        let (r, ds) := clearLoop deleteOk rest
        (r, f :: ds)
      else
        (.error "Deleting file failed, error code ", [])
    else
      clearLoop deleteOk rest

/-- `local_cache_clear` (lines 258-284).  `listing` is the directory
enumeration delivered by `FindFirstFile`/`FindNextFile` (`none` when
`FindFirstFile` returns `INVALID_HANDLE_VALUE`, in which case the function
silently returns). -/
def local_cache_clear (listing : Option (List String))
    (deleteOk : String → Bool) : Except String Unit × List String :=
  match listing with
  | none => (.ok (), [])
  | some entries => clearLoop deleteOk entries

/-! ## Codec lemmas -/

theorem leBytes_length (w v : Nat) : (leBytes w v).length = w := by
  induction w generalizing v with
  | zero => rfl
  | succ w ih => simp [leBytes, ih]

theorem leDecode_leBytes (w v : Nat) : leDecode (leBytes w v) = v % 256 ^ w := by
  induction w generalizing v with
  | zero => simp [leBytes, leDecode, Nat.mod_one]
  | succ w ih =>
    have h1 : leDecode (leBytes (w + 1) v)
        = v % 256 % 256 + 256 * leDecode (leBytes w (v / 256)) := rfl
    rw [h1, Nat.mod_mod_of_dvd _ dvd_rfl, ih, pow_succ']
    exact (Nat.mod_mul).symm

theorem decodeInt64_encodeInt64 (e : Int) (hlo : -(2 ^ 63) ≤ e) (hhi : e < 2 ^ 63) :
    decodeInt64 (encodeInt64 e) = e := by
  unfold decodeInt64 encodeInt64
  rw [List.take_of_length_le (le_of_eq (leBytes_length 8 _)), leDecode_leBytes]
  have hm0 : 0 ≤ e.emod (2 ^ 64) := Int.emod_nonneg e (by positivity)
  have hm1 : e.emod (2 ^ 64) < 2 ^ 64 := Int.emod_lt_of_pos e (by positivity)
  have hcast : ((e.emod (2 ^ 64)).toNat : Int) = e.emod (2 ^ 64) :=
    Int.toNat_of_nonneg hm0
  have hrel : e.emod (2 ^ 64) = e ∨ e.emod (2 ^ 64) = e + 2 ^ 64 := by
    by_cases he : 0 ≤ e
    · left
      exact Int.emod_eq_of_lt he (lt_trans hhi (by norm_num))
    · right
      have h1 : (e + 2 ^ 64).emod (2 ^ 64) = e.emod (2 ^ 64) := by
        conv_lhs => rw [show e + 2 ^ 64 = e + 2 ^ 64 * 1 by ring]
        exact Int.add_mul_emod_self_left e (2 ^ 64) 1
      have h2 : (e + 2 ^ 64).emod (2 ^ 64) = e + 2 ^ 64 :=
        Int.emod_eq_of_lt (by omega) (by omega)
      omega
  have hpow : (256 : Nat) ^ 8 = 2 ^ 64 := by norm_num
  rw [hpow]
  have hmod : (e.emod (2 ^ 64)).toNat % 2 ^ 64 = (e.emod (2 ^ 64)).toNat :=
    Nat.mod_eq_of_lt (by omega)
  rw [hmod]
  split <;> rename_i hsplit <;> omega

theorem encodeHeader_length (v : Nat) (e : Int) :
    (encodeHeader v e).length = HEADER_SIZE := by
  simp [encodeHeader, encodeInt64, leBytes_length, HEADER_SIZE]

theorem headerBuf_of_entry (v : Nat) (e : Int) (payload : List Nat) :
    headerBuf (encodeHeader v e ++ payload) = encodeHeader v e := by
  unfold headerBuf
  rw [show HEADER_SIZE = (encodeHeader v e).length from (encodeHeader_length v e).symm,
    List.take_left,
    Nat.sub_eq_zero_of_le (by simp)]
  simp

theorem encodeHeader_drop_expiry (v : Nat) (e : Int) :
    (encodeHeader v e).drop EXPIRY_OFFSET = encodeInt64 e := by
  have h : encodeHeader v e = (leBytes 2 v ++ [0, 0, 0, 0, 0, 0]) ++ encodeInt64 e := by
    simp [encodeHeader]
  rw [h,
    show EXPIRY_OFFSET = (leBytes 2 v ++ [0, 0, 0, 0, 0, 0]).length from by
      simp [EXPIRY_OFFSET, leBytes_length],
    List.drop_left]

theorem parsedExpiry_entry (v : Nat) (e : Int) (payload : List Nat)
    (hlo : -(2 ^ 63) ≤ e) (hhi : e < 2 ^ 63) :
    parsedExpiry (encodeHeader v e ++ payload) = e := by
  unfold parsedExpiry
  rw [headerBuf_of_entry, encodeHeader_drop_expiry]
  exact decodeInt64_encodeInt64 e hlo hhi

theorem entry_drop_header (v : Nat) (e : Int) (payload : List Nat) :
    (encodeHeader v e ++ payload).drop HEADER_SIZE = payload := by
  rw [show HEADER_SIZE = (encodeHeader v e).length from (encodeHeader_length v e).symm,
    List.drop_left]

/-! ## Loop lemmas -/

theorem openHandleGo_spec (results : Nat → OpenResult) (fuel j : Nat) :
    j + 1 ≤ (openHandleGo results j fuel).2 ∧
    (openHandleGo results j fuel).2 ≤ j + 1 + fuel ∧
    (openHandleGo results j fuel).1 = results ((openHandleGo results j fuel).2 - 1) ∧
    (∀ k, j ≤ k → k + 1 < (openHandleGo results j fuel).2 →
      retryable (results k) = true) ∧
    (retryable (openHandleGo results j fuel).1 = true →
      (openHandleGo results j fuel).2 = j + 1 + fuel) := by
  induction fuel generalizing j with
  | zero =>
    refine ⟨le_refl _, by simp [openHandleGo], by simp [openHandleGo], ?_, ?_⟩
    · intro k hk hk2
      simp [openHandleGo] at hk2
      omega
    · intro _
      simp [openHandleGo]
  | succ fuel ih =>
    by_cases h : retryable (results j) = true
    · have hstep : openHandleGo results j (fuel + 1) = openHandleGo results (j + 1) fuel := by
        simp [openHandleGo, h]
      rw [hstep]
      obtain ⟨i1, i2, i3, i4, i5⟩ := ih (j + 1)
      refine ⟨by omega, by omega, i3, ?_, fun hr => by have := i5 hr; omega⟩
      intro k hk hk2
      rcases Nat.eq_or_lt_of_le hk with rfl | hlt
      · exact h
      · exact i4 k hlt hk2
    · have hstep : openHandleGo results j (fuel + 1) = (results j, j + 1) := by
        simp [openHandleGo, h]
      rw [hstep]
      refine ⟨le_refl _, by omega, rfl, ?_, fun hr => absurd hr h⟩
      intro k hk hk2
      omega

theorem clearLoop_eq (deleteOk : String → Bool) (l : List String) :
    clearLoop deleteOk l =
      (if (l.filter notPseudo).all deleteOk then .ok ()
       else .error "Deleting file failed, error code ",
       (l.filter notPseudo).takeWhile deleteOk) := by
  induction l with
  | nil => rfl
  | cons f rest ih =>
    by_cases hp : notPseudo f
    · by_cases hd : deleteOk f
      · simp [clearLoop, hp, hd, List.filter_cons, List.takeWhile_cons, ih]
      · simp [clearLoop, hp, hd, List.filter_cons, List.takeWhile_cons]
    · simp [clearLoop, hp, List.filter_cons, ih]

/-! ## Claims -/

/-- **C1.** For every non-empty key and non-empty payload, a
`local_cache_add(key, expiry, payload)` whose writes succeed, followed by
`local_cache_get(key)` at a current time strictly before `expiry`, returns
exactly the stored payload bytes.  (`get_file_name` is deterministic, so both
calls address the same entry file; the file the successful `add` wrote is the
one `get` opens.) -/
theorem add_get_roundtrip (id : String) (expiry now : Int) (payload : List Nat)
    (dOk : Bool) (hid : ¬id.isEmpty) (hp : payload ≠ []) (hnow : now < expiry)
    (hlo : -(2 ^ 63) ≤ expiry) (hhi : expiry < 2 ^ 63) :
    (local_cache_add id expiry payload.length (some payload)
        ⟨true, true, true, true⟩).result
      = .ok (encodeHeader CACHE_V1 expiry ++ payload) ∧
    (local_cache_get id now true
        (.ok (encodeHeader CACHE_V1 expiry ++ payload)) dOk).result
      = .ok (some payload) := by
  have hlen : payload.length ≠ 0 := by simpa using hp
  constructor
  · simp [local_cache_add, hid, hlen]
  · have hexp := parsedExpiry_entry CACHE_V1 expiry payload hlo hhi
    simp [local_cache_get, hid, hexp, not_le.mpr hnow, entry_drop_header]
    rw [if_neg (by rw [encodeHeader_length]; omega)]

/-- **C1** witness: key `"k"`, payload `[1, 2, 3]`, expiry 100, current time 0. -/
theorem add_get_roundtrip_witness :
    (local_cache_add "k" 100 ([1, 2, 3] : List Nat).length (some [1, 2, 3])
        ⟨true, true, true, true⟩).result
      = .ok (encodeHeader CACHE_V1 100 ++ [1, 2, 3]) ∧
    (local_cache_get "k" 0 true
        (.ok (encodeHeader CACHE_V1 100 ++ [1, 2, 3])) true).result
      = .ok (some [1, 2, 3]) :=
  add_get_roundtrip "k" 100 0 [1, 2, 3] true (by decide) (by decide) (by decide)
    (by decide) (by decide)

/-- **C2** counterexample.  The claim puts the payload at offset 10 and derives
its length as file size − 10.  The entry file actually written for the 3-byte
payload `[1, 2, 3]` has `sizeof(CacheEntryHeaderV1) = 16` header bytes (MSVC
pads the struct: 2-byte `version`, 6 padding bytes, 8-byte `expiry`), so its
size is 19 and file size − 10 = 9 ≠ 3. -/
theorem entry_minus_ten_counterexample :
    (local_cache_add "k" 0 3 (some [1, 2, 3]) ⟨true, true, true, true⟩).result
      = .ok (encodeHeader CACHE_V1 0 ++ [1, 2, 3]) ∧
    (encodeHeader CACHE_V1 0 ++ [1, 2, 3]).length = 19 ∧
    ¬((encodeHeader CACHE_V1 0 ++ [1, 2, 3]).length - 10 = 3) := by
  refine ⟨rfl, rfl, by decide⟩

/-- **C2** (amended).  Every entry file written by `local_cache_add` is the
raw `CacheEntryHeaderV1` bytes followed by the payload: under the MSVC x64
layout of the struct that is a 2-byte unsigned version at offset 0, six
padding bytes, the 8-byte expiry at offset 8, and the payload starting at
offset `sizeof(CacheEntryHeaderV1) = 16`; so the payload length equals the
file size minus 16, and `local_cache_get` derives the payload it returns the
same way, as the file bytes from offset `sizeof(CacheEntryHeaderV1)` on. -/
theorem entry_file_layout (id : String) (e now : Int) (bytes : List Nat)
    (dOk : Bool) (hid : ¬id.isEmpty) (hb : bytes ≠ []) (hnow : now < e)
    (hlo : -(2 ^ 63) ≤ e) (hhi : e < 2 ^ 63) :
    (local_cache_add id e bytes.length (some bytes) ⟨true, true, true, true⟩).result
      = .ok (encodeHeader CACHE_V1 e ++ bytes) ∧
    (encodeHeader CACHE_V1 e ++ bytes).length = HEADER_SIZE + bytes.length ∧
    (encodeHeader CACHE_V1 e ++ bytes).take 2 = leBytes 2 CACHE_V1 ∧
    List.take 8 (List.drop EXPIRY_OFFSET (encodeHeader CACHE_V1 e ++ bytes))
      = encodeInt64 e ∧
    List.drop HEADER_SIZE (encodeHeader CACHE_V1 e ++ bytes) = bytes ∧
    bytes.length = (encodeHeader CACHE_V1 e ++ bytes).length - HEADER_SIZE ∧
    (local_cache_get id now true (.ok (encodeHeader CACHE_V1 e ++ bytes)) dOk).result
      = .ok (some (List.drop HEADER_SIZE (encodeHeader CACHE_V1 e ++ bytes))) := by
  have hassoc : encodeHeader CACHE_V1 e ++ bytes
      = (leBytes 2 CACHE_V1 ++ [0, 0, 0, 0, 0, 0]) ++ (encodeInt64 e ++ bytes) := by
    simp [encodeHeader]
  have hlen8 : (leBytes 2 CACHE_V1 ++ [0, 0, 0, 0, 0, 0]).length = 8 := by
    simp [leBytes_length]
  refine ⟨?_, ?_, ?_, ?_, entry_drop_header CACHE_V1 e bytes, ?_, ?_⟩
  · have hlen : bytes.length ≠ 0 := by simpa using hb
    simp [local_cache_add, hid, hlen]
  · simp [encodeHeader_length]
  · rw [hassoc, List.append_assoc,
      List.take_append_of_le_length (by simp [leBytes_length])]
    exact List.take_of_length_le (le_of_eq (leBytes_length 2 CACHE_V1))
  · rw [hassoc,
      show EXPIRY_OFFSET = (leBytes 2 CACHE_V1 ++ [0, 0, 0, 0, 0, 0]).length
        from by rw [hlen8]; rfl,
      List.drop_left,
      List.take_append_of_le_length (by simp [encodeInt64, leBytes_length])]
    exact List.take_of_length_le (by simp [encodeInt64, leBytes_length])
  · simp [encodeHeader_length]
  · have hexp := parsedExpiry_entry CACHE_V1 e bytes hlo hhi
    simp [local_cache_get, hid, hexp, not_le.mpr hnow, entry_drop_header]
    rw [if_neg (by rw [encodeHeader_length]; omega)]

/-- **C2** witness: key `"k"`, payload `[1, 2, 3]`, expiry 100, current
time 0. -/
theorem entry_file_layout_witness :
    (local_cache_add "k" 100 ([1, 2, 3] : List Nat).length (some [1, 2, 3])
        ⟨true, true, true, true⟩).result
      = .ok (encodeHeader CACHE_V1 100 ++ [1, 2, 3]) ∧
    (encodeHeader CACHE_V1 100 ++ [1, 2, 3]).length = HEADER_SIZE + ([1, 2, 3] : List Nat).length ∧
    (encodeHeader CACHE_V1 100 ++ [1, 2, 3]).take 2 = leBytes 2 CACHE_V1 ∧
    List.take 8 (List.drop EXPIRY_OFFSET (encodeHeader CACHE_V1 100 ++ [1, 2, 3]))
      = encodeInt64 100 ∧
    List.drop HEADER_SIZE (encodeHeader CACHE_V1 100 ++ [1, 2, 3]) = [1, 2, 3] ∧
    ([1, 2, 3] : List Nat).length = (encodeHeader CACHE_V1 100 ++ [1, 2, 3]).length - HEADER_SIZE ∧
    (local_cache_get "k" 0 true (.ok (encodeHeader CACHE_V1 100 ++ [1, 2, 3])) true).result
      = .ok (some (List.drop HEADER_SIZE (encodeHeader CACHE_V1 100 ++ [1, 2, 3]))) :=
  entry_file_layout "k" 100 0 [1, 2, 3] true (by decide) (by decide) (by decide)
    (by decide) (by decide)

/-- **C3** counterexample.  The claim says an open failure other than
file-not-found raises a fatal I/O error.  On an `ERROR_ACCESS_DENIED` open
failure (which is not `ERROR_FILE_NOT_FOUND`), `local_cache_get` instead
returns the `nullptr` cache-miss result: the code returns `nullptr` whenever
`OpenHandle` yields `INVALID_HANDLE_VALUE`, without inspecting the error. -/
theorem get_open_failure_counterexample :
    ERROR_ACCESS_DENIED ≠ ERROR_FILE_NOT_FOUND ∧
    (local_cache_get "key" 0 true (.fail ERROR_ACCESS_DENIED) true).result
      = .ok none := ⟨by decide, rfl⟩

/-- **C3** (amended).  For every non-empty key, when `local_cache_get`'s file
open fails it returns not-found, whatever the reason for the failure: the
file-not-found case, but equally any other failure code, including exhaustion
of the contention retry budget.  No open failure raises an error. -/
theorem get_open_failure_not_found (id : String) (now : Int) (err : Nat)
    (dOk : Bool) (hid : ¬id.isEmpty) :
    (local_cache_get id now true (.fail err) dOk).result = .ok none := by
  simp [local_cache_get, hid]

/-- **C3** witness: key `"key"`, open failure `ERROR_SHARING_VIOLATION`
(the code after retry exhaustion). -/
theorem get_open_failure_not_found_witness :
    (local_cache_get "key" 0 true (.fail ERROR_SHARING_VIOLATION) true).result
      = .ok none :=
  get_open_failure_not_found "key" 0 ERROR_SHARING_VIOLATION true (by decide)

/-- **C4.** For every existing entry whose stored expiry is at or before the
current time, `local_cache_get` calls `DeleteFileW` on the entry file and
returns not-found; the deletion outcome `dOk` (which may be a failure) does
not change the result — it only determines whether the file is gone. -/
theorem get_expired_deletes_not_found (id : String) (e now : Int)
    (payload : List Nat) (dOk : Bool) (hid : ¬id.isEmpty) (hexp : e ≤ now)
    (hlo : -(2 ^ 63) ≤ e) (hhi : e < 2 ^ 63) :
    (local_cache_get id now true (.ok (encodeHeader CACHE_V1 e ++ payload)) dOk).result
      = .ok none ∧
    (local_cache_get id now true (.ok (encodeHeader CACHE_V1 e ++ payload)) dOk).deleteAttempted
      = true ∧
    (local_cache_get id now true (.ok (encodeHeader CACHE_V1 e ++ payload)) dOk).deleteSucceeded
      = dOk := by
  have h := parsedExpiry_entry CACHE_V1 e payload hlo hhi
  refine ⟨?_, ?_, ?_⟩ <;> simp [local_cache_get, hid, h, hexp]

/-- **C4** witness: key `"k"`, stored expiry 0, current time 0, and a
*failing* deletion (`dOk = false`): the result is still not-found. -/
theorem get_expired_deletes_not_found_witness :
    (local_cache_get "k" 0 true (.ok (encodeHeader CACHE_V1 0 ++ [9])) false).result
      = .ok none ∧
    (local_cache_get "k" 0 true (.ok (encodeHeader CACHE_V1 0 ++ [9])) false).deleteAttempted
      = true ∧
    (local_cache_get "k" 0 true (.ok (encodeHeader CACHE_V1 0 ++ [9])) false).deleteSucceeded
      = false :=
  get_expired_deletes_not_found "k" 0 0 [9] false (by decide) (by decide)
    (by decide) (by decide)

/-- **C5** counterexample.  The claim says every directory-creation failure
other than "already exists" (it names access-denied) is fatal.  But
`make_dir`'s check is
`GetLastError() == ERROR_PATH_NOT_FOUND && GetLastError() != ERROR_ALREADY_EXISTS`,
so an `ERROR_ACCESS_DENIED` outcome — which is not "already exists" — does
not throw. -/
theorem make_dir_access_denied_counterexample :
    ERROR_ACCESS_DENIED ≠ ERROR_ALREADY_EXISTS ∧
    make_dir ERROR_ACCESS_DENIED = .ok () := ⟨by decide, rfl⟩

/-- **C5** (amended).  During directory resolution, the directory creation
step treats "already exists" as success, and of the other directory-creation
failures only `ERROR_PATH_NOT_FOUND` (an intermediate path segment does not
exist) is a fatal error for the calling operation; every other failure, for
example access-denied, is also treated as success. -/
theorem make_dir_only_path_not_found_fatal (lastError : Nat) :
    make_dir ERROR_ALREADY_EXISTS = .ok () ∧
    (make_dir lastError = .ok () ↔ lastError ≠ ERROR_PATH_NOT_FOUND) := by
  refine ⟨rfl, ?_⟩
  by_cases h : lastError = ERROR_PATH_NOT_FOUND
  · subst h
    simp [make_dir, ERROR_PATH_NOT_FOUND, ERROR_ALREADY_EXISTS]
  · simp [make_dir, h]

/-- **C6.** `OpenHandle` makes at least one and at most `MAX_RETRY = 10000`
`CreateFile` attempts; the value it returns is exactly the outcome of the last
attempt (returned as-is, with no further handling); every attempt before the
last failed with specifically `ERROR_SHARING_VIOLATION` (the only re-attempt
condition); and if the final outcome is still a sharing violation, the loop
ended only because the retry budget of `MAX_RETRY` attempts was exhausted. -/
theorem open_handle_bounded_retry (results : Nat → OpenResult) :
    1 ≤ (OpenHandle results).2 ∧
    (OpenHandle results).2 ≤ MAX_RETRY ∧
    (OpenHandle results).1 = results ((OpenHandle results).2 - 1) ∧
    (∀ k, k + 1 < (OpenHandle results).2 → retryable (results k) = true) ∧
    (retryable (OpenHandle results).1 = true → (OpenHandle results).2 = MAX_RETRY) := by
  obtain ⟨i1, i2, i3, i4, i5⟩ := openHandleGo_spec results (MAX_RETRY - 1) 0
  exact ⟨i1, by simpa [MAX_RETRY] using i2, i3,
    fun k hk => i4 k (Nat.zero_le k) hk,
    fun hr => by simpa [MAX_RETRY] using i5 hr⟩

/-- **C7.** `local_cache_add` with an empty key, a zero-length payload, or a
null payload pointer, and `local_cache_get` with an empty key, each throw the
corresponding argument error having performed no filesystem action at all: no
directory initialization, no file open, no write. -/
theorem precondition_errors_no_io (id : String) (expiry now : Int) (n : Nat)
    (d : Option (List Nat)) (env : AddEnv) (initOk : Bool)
    (openRes : OpenResult) (dOk : Bool) (hid : ¬id.isEmpty) (hn : n ≠ 0) :
    local_cache_add "" expiry n d env
      = ⟨.error "The 'id' parameter must not be empty.", []⟩ ∧
    local_cache_add id expiry 0 d env
      = ⟨.error "Data cannot be empty.", []⟩ ∧
    local_cache_add id expiry n none env
      = ⟨.error "Data pointer must not be NULL.", []⟩ ∧
    local_cache_get "" now initOk openRes dOk
      = ⟨.error "The 'id' parameter must not be empty.", [], false, false⟩ := by
  refine ⟨rfl, ?_, ?_, rfl⟩
  · simp [local_cache_add, hid]
  · simp [local_cache_add, hid, hn]

/-- **C7** witness: key `"k"`, payload size 3. -/
theorem precondition_errors_no_io_witness :
    local_cache_add "" 5 3 (some [1, 2, 3]) ⟨true, true, true, true⟩
      = ⟨.error "The 'id' parameter must not be empty.", []⟩ ∧
    local_cache_add "k" 5 0 (some [1, 2, 3]) ⟨true, true, true, true⟩
      = ⟨.error "Data cannot be empty.", []⟩ ∧
    local_cache_add "k" 5 3 none ⟨true, true, true, true⟩
      = ⟨.error "Data pointer must not be NULL.", []⟩ ∧
    local_cache_get "" 0 true (.fail ERROR_FILE_NOT_FOUND) true
      = ⟨.error "The 'id' parameter must not be empty.", [], false, false⟩ :=
  precondition_errors_no_io "k" 5 0 3 (some [1, 2, 3]) ⟨true, true, true, true⟩
    true (.fail ERROR_FILE_NOT_FOUND) true (by decide) (by decide)

/-- `takeWhile` keeps the whole list when every element satisfies the
predicate. -/
theorem takeWhile_eq_self_of_all {α : Type} (p : α → Bool) (l : List α)
    (h : l.all p = true) : l.takeWhile p = l := by
  induction l with
  | nil => rfl
  | cons a l ih =>
    simp only [List.all_cons, Bool.and_eq_true] at h
    simp [List.takeWhile_cons, h.1, ih h.2]

/-- **C8.** `local_cache_clear` walks the directory listing in enumeration
order, skips exactly the `.` and `..` pseudo-entries, and deletes the rest one
by one until the first failed deletion: the files actually deleted are the
longest all-deletable prefix (`takeWhile`) of the non-pseudo entries, the call
throws precisely when some non-pseudo entry fails to delete (so everything
after the first failure is left undeleted), and when every deletion succeeds
all non-pseudo entries are deleted. -/
theorem clear_stops_at_first_failure (entries : List String)
    (deleteOk : String → Bool) :
    (local_cache_clear (some entries) deleteOk).2
      = (entries.filter notPseudo).takeWhile deleteOk ∧
    ((local_cache_clear (some entries) deleteOk).1 = .ok ()
      ↔ (entries.filter notPseudo).all deleteOk = true) ∧
    ((entries.filter notPseudo).all deleteOk = true →
      (local_cache_clear (some entries) deleteOk).2 = entries.filter notPseudo) := by
  have h := clearLoop_eq deleteOk entries
  refine ⟨?_, ?_, ?_⟩
  · simp [local_cache_clear, h]
  · simp only [local_cache_clear, h]
    by_cases hall : (entries.filter notPseudo).all deleteOk = true <;> simp [hall]
  · intro hall
    simp [local_cache_clear, h, takeWhile_eq_self_of_all _ _ hall]

/-- **C9.** Cache-directory resolution uses the `LOCALAPPDATA` value as the
base directory whenever it is non-empty; otherwise the `AZDCAP_CACHE` value
when that is non-empty; and when both are empty it throws the configuration
error.  In the two success cases the resolved directory is the base joined
with the fixed `\.az-dcap-client` subdirectory name (assuming the directory
creation does not hit `ERROR_PATH_NOT_FOUND`, the one fatal `make_dir`
case). -/
theorem init_callback_resolution (env_home env_azdcap_cache : String)
    (mkdirLastError : Nat) (hmk : mkdirLastError ≠ ERROR_PATH_NOT_FOUND) :
    (¬env_home.isEmpty →
      init_callback env_home env_azdcap_cache mkdirLastError
        = .ok (env_home ++ application_name)) ∧
    (env_home.isEmpty → ¬env_azdcap_cache.isEmpty →
      init_callback env_home env_azdcap_cache mkdirLastError
        = .ok (env_azdcap_cache ++ application_name)) ∧
    (env_home.isEmpty → env_azdcap_cache.isEmpty →
      init_callback env_home env_azdcap_cache mkdirLastError
        = .error "LOCALAPPDATA and AZDCAPCACHE environment variables not defined") := by
  have hmd : make_dir mkdirLastError = .ok () := by simp [make_dir, hmk]
  refine ⟨fun h1 => ?_, fun h1 h2 => ?_, fun h1 h2 => ?_⟩ <;>
    simp [init_callback, Except.map, h1, hmd, *]

/-- **C9** witness: `LOCALAPPDATA` non-empty wins over a non-empty
`AZDCAP_CACHE`. -/
theorem init_callback_resolution_witness :
    init_callback "C:u" "D:c" 0 = .ok ("C:u" ++ application_name) :=
  (init_callback_resolution "C:u" "D:c" 0 (by decide)).1 (by decide)

/-- **C10** counterexample.  A 12-byte entry file (shorter than the 16-byte
header) whose bytes at the expiry offset are `0xFF` decodes — after the
zero-fill of the unread tail — to expiry `4294967295`, which is *after* the
current time `1760000000`; `local_cache_get` then computes the negative
`int datasize = size - sizeof(CacheEntryHeaderV1)` and the `std::vector`
allocation throws, so the call reports an error instead of deleting the file
and returning not-found as the claim states for every short file. -/
theorem get_short_file_counterexample :
    ([0, 0, 0, 0, 0, 0, 0, 0, 255, 255, 255, 255] : List Nat).length < HEADER_SIZE ∧
    (local_cache_get "k" 1760000000 true
        (.ok [0, 0, 0, 0, 0, 0, 0, 0, 255, 255, 255, 255]) true).result
      = .error "vector length_error" ∧
    (local_cache_get "k" 1760000000 true
        (.ok [0, 0, 0, 0, 0, 0, 0, 0, 255, 255, 255, 255]) true).deleteAttempted
      = false := ⟨by decide, rfl, rfl⟩

/-- **C10** (amended).  For every existing entry file shorter than the header
size whose zero-padded header bytes decode to an expiry at or before the
current time — in particular every zero-length file, whose header buffer stays
entirely zero so the expiry decodes to 0 — `local_cache_get` does not report a
corruption error: because the number of header bytes actually read is never
checked, the zero-filled expiry compares as expired, so the call deletes the
file and returns not-found.  (A short file whose decoded expiry is after the
current time instead fails with the negative-size allocation error, see the
counterexample.) -/
theorem get_short_file_not_found (id : String) (now : Int) (content : List Nat)
    (dOk : Bool) (hid : ¬id.isEmpty) (_hshort : content.length < HEADER_SIZE)
    (hexp : parsedExpiry content ≤ now) :
    (local_cache_get id now true (.ok content) dOk).result = .ok none ∧
    (local_cache_get id now true (.ok content) dOk).deleteAttempted = true ∧
    parsedExpiry ([] : List Nat) = 0 := by
  refine ⟨?_, ?_, by decide⟩ <;> simp [local_cache_get, hid, hexp]

/-- **C10** witness: the zero-length file at current time 0. -/
theorem get_short_file_not_found_witness :
    (local_cache_get "k" 0 true (.ok []) true).result = .ok none ∧
    (local_cache_get "k" 0 true (.ok []) true).deleteAttempted = true ∧
    parsedExpiry ([] : List Nat) = 0 :=
  get_short_file_not_found "k" 0 [] true (by decide) (by decide) (by decide)

end LocalCache
